import Mathlib

/-!
Shallow embedding of the madcat_register backend (src/src/routes/users.js and
src/src/config/twitter.js): registration validation and persistence, the
admin listing endpoint, the OAuth 1.0a handshake routes with their ephemeral
token cache, and the static leaderboard data.

External collaborators are modelled explicitly: the PostgreSQL table is a
list of rows, the upstream HTTP responses are parameters, and the
`global.tempTokenStorage` JS `Map` is an association list with JS `Map`
get/set/delete semantics.
-/

namespace Madcat

/-! ### Character and string helpers (validator.js semantics) -/

/-- The double-quote character. -/
def quoteChar : Char := Char.ofNat 34

/-- The single-quote character. -/
def aposChar : Char := Char.ofNat 39

/-- The backslash character. -/
def backslashChar : Char := Char.ofNat 92

/-- The backquote character. -/
def backquoteChar : Char := Char.ofNat 96

/-- Hex digit as in the regex character class `[a-fA-F0-9]` used for
wallet addresses. -/
def isHexChar (c : Char) : Bool :=
  c.isDigit || ('a' ≤ c && c ≤ 'f') || ('A' ≤ c && c ≤ 'F')

/-- Word character as in the regex character class `[a-zA-Z0-9_]` used for
twitter usernames. -/
def isWordChar (c : Char) : Bool :=
  c.isAlpha || c.isDigit || c = '_'

/-- JS `String.prototype.trim` / express-validator `.trim()` sanitizer:
drop leading and trailing whitespace. -/
def jsTrim (s : String) : String :=
  String.mk (((s.toList.dropWhile Char.isWhitespace).reverse.dropWhile Char.isWhitespace).reverse)

/-- validator.js `escape`: per-character HTML-entity replacement. The
library performs eight sequential global `replace` calls, ampersand first;
since no produced entity contains a character replaced by a later step,
that sequence acts independently on each input character, which is what we
encode. -/
def escChar (c : Char) : List Char :=
  if c = '&' then ['&', 'a', 'm', 'p', ';']
  else if c = quoteChar then ['&', 'q', 'u', 'o', 't', ';']
  else if c = aposChar then ['&', '#', 'x', '2', '7', ';']
  else if c = '<' then ['&', 'l', 't', ';']
  else if c = '>' then ['&', 'g', 't', ';']
  else if c = '/' then ['&', '#', 'x', '2', 'F', ';']
  else if c = backslashChar then ['&', '#', 'x', '5', 'C', ';']
  else if c = backquoteChar then ['&', '#', '9', '6', ';']
  else [c]

/-- validator.js `escape` on a whole string. -/
def jsEscape (s : String) : String :=
  String.mk (s.toList.flatMap escChar)

/-- Optional leading sign of validator.js `isNumeric` (regex `[+-]?`). -/
def stripSign (cs : List Char) : List Char :=
  match cs with
  | c :: rest => if c = '+' || c = '-' then rest else cs
  | [] => []

/-- The part of the `isNumeric` regex after the optional sign,
`([0-9]*[.])?[0-9]+`, on a character list: leading digits, then either
nothing (at least one digit overall) or one decimal point followed by at
least one digit. -/
def numericList (cs : List Char) : Bool :=
  match cs.dropWhile Char.isDigit with
  | [] => !cs.isEmpty
  | c :: rest => c = '.' && !rest.isEmpty && rest.all Char.isDigit

/-- validator.js `isNumeric` with default options (as used by
express-validator's `.isNumeric()`): the regex `^[+-]?([0-9]*[.])?[0-9]+$`,
i.e. an optional sign, then digits with at most one decimal point and at
least one digit after the point if present. -/
def isNumericDefault (s : String) : Bool :=
  numericList (stripSign s.toList)

/-! ### Registration validation (`validateRegistration` middleware) -/

/-- One entry of express-validator's `errors.array()`: the offending field
and the `withMessage` text. -/
structure FieldError where
  field : String
  msg : String
deriving DecidableEq

/-- Chain for `body('twitter_id')`: `notEmpty`, `isNumeric`,
`isLength {min 1, max 20}`; every failing validator contributes its
message. -/
def twitterIdErrors (v : String) : List FieldError :=
  (if v = "" then [⟨"twitter_id", "Twitter ID is required"⟩] else []) ++
  (if isNumericDefault v then [] else [⟨"twitter_id", "Twitter ID must be numeric"⟩]) ++
  (if 1 ≤ v.length ∧ v.length ≤ 20 then []
   else [⟨"twitter_id", "Twitter ID must be between 1 and 20 characters"⟩])

/-- Chain for `body('twitter_username')`: `optional` (skip when the field
is absent), `isLength {min 1, max 25}`, `matches [a-zA-Z0-9_]+`. -/
def twitterUsernameErrors : Option String → List FieldError
  | none => []
  | some v =>
    (if 1 ≤ v.length ∧ v.length ≤ 25 then []
     else [⟨"twitter_username", "Twitter username must be between 1 and 15 characters"⟩]) ++
    (if v ≠ "" ∧ v.toList.all isWordChar then []
     else [⟨"twitter_username", "Twitter username can only contain letters, numbers, and underscores"⟩])

/-- Chain for `body('telegram_username')`: `notEmpty`,
`isLength {min 1, max 50}`, then the `trim` sanitizer. The sanitizer runs
after both validators, so they see the untrimmed value; the trimmed value
is what the route handler later reads from the body. -/
def telegramUsernameErrors (v : String) : List FieldError :=
  (if v = "" then [⟨"telegram_username", "Telegram username is required"⟩] else []) ++
  (if 1 ≤ v.length ∧ v.length ≤ 50 then []
   else [⟨"telegram_username", "Telegram username must be between 1 and 50 characters"⟩])

/-- The regex `^0x[a-fA-F0-9]{40}$`. -/
def walletMatches (v : String) : Bool :=
  match v.toList with
  | c1 :: c2 :: rest => c1 = '0' && c2 = 'x' && rest.length = 40 && rest.all isHexChar
  | _ => false

/-- Chain for `body('wallet_address')`: `notEmpty`,
`isLength {min 42, max 42}`, `matches ^0x[a-fA-F0-9]{40}$`. -/
def walletAddressErrors (v : String) : List FieldError :=
  (if v = "" then [⟨"wallet_address", "Wallet address is required"⟩] else []) ++
  (if v.length = 42 then []
   else [⟨"wallet_address", "Wallet address must be exactly 42 characters"⟩]) ++
  (if walletMatches v then []
   else [⟨"wallet_address", "Invalid Ethereum wallet address format"⟩])

/-- A POST /api/register body. Required fields are strings (a missing
field behaves like the empty string for every check involved); the two
optional fields are `Option`, matching express-validator's `optional()`
which skips validation when the field is absent. -/
structure RegInput where
  twitter_id : String
  twitter_username : Option String
  twitter_name : Option String
  telegram_username : String
  wallet_address : String
deriving DecidableEq

/-- All field errors collected by `validationResult(req)` for the
registration middleware. -/
def validateRegistration (inp : RegInput) : List FieldError :=
  twitterIdErrors inp.twitter_id ++
  twitterUsernameErrors inp.twitter_username ++
  telegramUsernameErrors inp.telegram_username ++
  walletAddressErrors inp.wallet_address

/-! ### The user_profiles table and POST /api/register -/

/-- One row of the `user_profiles` table. Timestamps are abstract instants
(`NOW()` is passed to `register` as a parameter). `id` is the SERIAL
surrogate key. -/
structure UserRow where
  id : Nat
  twitter_id : String
  twitter_username : Option String
  twitter_name : Option String
  telegram_username : String
  wallet_address : String
  created_at : Nat
  updated_at : Nat
deriving DecidableEq

/-- The existence query
`SELECT * FROM user_profiles WHERE twitter_id = $1 OR telegram_username = $2 OR wallet_address = $3`
returned at least one row. -/
def collisionExists (db : List UserRow) (tid tel wallet : String) : Bool :=
  db.any fun r => r.twitter_id = tid || r.telegram_username = tel || r.wallet_address = wallet

/-- Outcome of the `INSERT INTO user_profiles ...` statement, supplied by
the storage engine: success, a unique-constraint violation (PostgreSQL
error code 23505, possible in a race even after the existence check), or
any other database error. -/
inductive InsertOutcome where
  | success
  | uniqueViolation
  | otherError (msg : String)
deriving DecidableEq

/-- Response of the POST /api/register handler. -/
inductive RegisterResult where
  /-- 400 `Validation failed` with `errors.array()` details. -/
  | validationFailed (details : List FieldError)
  /-- 400 `Missing required fields: ...` from the defensive re-check. -/
  | missingFields
  /-- 400 `User already registered with this Twitter, Telegram, or wallet
  address` from the existence query. -/
  | duplicateIdentity
  /-- 400 `User already registered` from catching error code 23505. -/
  | duplicateAtInsert
  /-- 500 with the error message. -/
  | storageError (msg : String)
  /-- 200 `{success, message, user}` with the persisted row. -/
  | success (row : UserRow)
deriving DecidableEq

/-- HTTP status code of each register response. -/
def RegisterResult.httpStatus : RegisterResult → Nat
  | .validationFailed _ => 400
  | .missingFields => 400
  | .duplicateIdentity => 400
  | .duplicateAtInsert => 400
  | .storageError _ => 500
  | .success _ => 200

/-- Whether a register response is the 200 success. -/
def RegisterResult.isSuccess : RegisterResult → Bool
  | .success _ => true
  | _ => false

/-- The POST /api/register handler with its `validateRegistration`
middleware. The middleware first collects field errors (400 on any), and
its `trim` sanitizer rewrites `telegram_username` in the body; the handler
then re-checks JS truthiness of the three required fields (the empty
string is falsy), runs the existence query, and inserts with
`created_at = updated_at = NOW()`. Returns the response and the resulting
table. -/
def register (db : List UserRow) (now : Nat) (inp : RegInput)
    (outcome : InsertOutcome) : RegisterResult × List UserRow :=
  let errors := validateRegistration inp
  if errors.isEmpty then
    let tel := jsTrim inp.telegram_username
    if inp.twitter_id = "" || tel = "" || inp.wallet_address = "" then
      (.missingFields, db)
    else if collisionExists db inp.twitter_id tel inp.wallet_address then
      (.duplicateIdentity, db)
    else
      match outcome with
      | .success =>
        let row : UserRow :=
          ⟨db.length + 1, inp.twitter_id, inp.twitter_username, inp.twitter_name,
            tel, inp.wallet_address, now, now⟩
        (.success row, db ++ [row])
      | .uniqueViolation => (.duplicateAtInsert, db)
      | .otherError msg => (.storageError msg, db)
  else
    (.validationFailed errors, db)

/-! ### POST /api/users (admin listing) -/

/-- The `ORDER BY created_at DESC` relation. -/
def byCreatedDesc (a b : UserRow) : Prop := b.created_at ≤ a.created_at

instance : DecidableRel byCreatedDesc := fun a b => Nat.decLe b.created_at a.created_at

instance : IsTotal UserRow byCreatedDesc :=
  ⟨fun a b => (Nat.le_total b.created_at a.created_at).elim Or.inl Or.inr⟩

instance : IsTrans UserRow byCreatedDesc :=
  ⟨fun _ _ _ h1 h2 => Nat.le_trans h2 h1⟩

/-- `SELECT * FROM user_profiles ORDER BY created_at DESC`. -/
def sortByCreatedDesc (db : List UserRow) : List UserRow :=
  List.insertionSort byCreatedDesc db

/-- Response of the POST /api/users handler body (after the
`validateAdmin` middleware has passed). -/
inductive ListResult where
  /-- 401 `Unauthorized` / `Invalid admin credentials`; carries no rows. -/
  | unauthorized
  /-- 200 `{success, users, count}`. -/
  | ok (users : List UserRow)
deriving DecidableEq

/-- The POST /api/users handler proper: compares the body credentials
against `process.env.ADMIN_USERNAME` / `ADMIN_PASSWORD` and on a match
returns every row ordered by `created_at` descending. -/
def listUsers (adminU adminP : String) (db : List UserRow)
    (username password : String) : ListResult :=
  if username ≠ adminU ∨ password ≠ adminP then .unauthorized
  else .ok (sortByCreatedDesc db)

/-- Chain for `body('username')` in `validateAdmin`: `notEmpty`,
`isLength {min 3, max 50}`, then the `trim` and `escape` sanitizers
(which run after the checks and rewrite the body value). -/
def adminUsernameErrors (v : String) : List FieldError :=
  (if v = "" then [⟨"username", "Username is required"⟩] else []) ++
  (if 3 ≤ v.length ∧ v.length ≤ 50 then []
   else [⟨"username", "Username must be between 3 and 50 characters"⟩])

/-- Chain for `body('password')` in `validateAdmin`: `notEmpty`,
`isLength {min 8}`; no sanitizers. -/
def adminPasswordErrors (v : String) : List FieldError :=
  (if v = "" then [⟨"password", "Password is required"⟩] else []) ++
  (if 8 ≤ v.length then []
   else [⟨"password", "Password must be at least 8 characters long"⟩])

/-- Response of the full POST /api/users endpoint. -/
inductive UsersResult where
  /-- 400 `Validation failed`. -/
  | validationFailed (details : List FieldError)
  /-- 401 `Unauthorized`. -/
  | unauthorized
  /-- 200 with the rows. -/
  | ok (users : List UserRow)
deriving DecidableEq

/-- Whether a POST /api/users response is the 200 success. -/
def UsersResult.isOk : UsersResult → Bool
  | .ok _ => true
  | _ => false

/-- The full POST /api/users endpoint: `validateAdmin` middleware (error
collection plus the username `trim`/`escape` sanitization of the body),
then the credential check and listing of `listUsers`. The password is
never sanitized. -/
def usersEndpoint (adminU adminP : String) (db : List UserRow)
    (username password : String) : UsersResult :=
  let errors := adminUsernameErrors username ++ adminPasswordErrors password
  if errors.isEmpty then
    match listUsers adminU adminP db (jsEscape (jsTrim username)) password with
    | .unauthorized => .unauthorized
    | .ok users => .ok users
  else
    .validationFailed errors

/-! ### Ephemeral token cache (`global.tempTokenStorage`, a JS `Map`) -/

/-- The cache contents: key/value pairs in insertion order. A JS `Map`
never holds a key twice. -/
abbrev TokenCache := List (String × String)

/-- JS `Map.prototype.get`: value of the key, if present. -/
def mapGet : TokenCache → String → Option String
  | [], _ => none
  | (k', v) :: rest, k => if k' = k then some v else mapGet rest k

/-- JS `Map.prototype.set`: overwrite the existing entry in place, else
append. -/
def mapSet : TokenCache → String → String → TokenCache
  | [], k, v => [(k, v)]
  | (k', v') :: rest, k, v =>
    if k' = k then (k, v) :: rest else (k', v') :: mapSet rest k v

/-- JS `Map.prototype.delete`: remove the entry of the key (at most one
exists in a real `Map`). -/
def mapDelete : TokenCache → String → TokenCache
  | [], _ => []
  | (k', v) :: rest, k => if k' = k then rest else (k', v) :: mapDelete rest k

/-! ### OAuth handshake routes -/

/-- An upstream HTTP response: `response.ok` (status 2xx) and the parsed
form-encoded body (`URLSearchParams`, first occurrence wins on `get`). -/
structure UpstreamResp where
  ok : Bool
  params : List (String × String)
deriving DecidableEq

/-- The fixed authorize endpoint from src/src/config/twitter.js. -/
def TWITTER_AUTHORIZE_URL : String := "https://api.twitter.com/oauth/authorize"

/-- Response of GET /api/auth/twitter. -/
inductive BeginResult where
  /-- 500, Twitter API credentials not configured. -/
  | notConfigured
  /-- 500 via the thrown `Failed to get request token` (fetch error or
  non-2xx status). -/
  | upstreamUnavailable
  /-- 500 via the thrown `Invalid response from Twitter` (missing
  `oauth_token` or `oauth_token_secret`). -/
  | malformedUpstream
  /-- 200 `{auth_url}`. -/
  | ok (authUrl : String)
deriving DecidableEq

/-- The GET /api/auth/twitter handler (`beginHandshake`). `resp = none`
models the fetch call itself throwing. JS truthiness: a present but empty
`oauth_token`/`oauth_token_secret` is falsy and counts as missing. Returns
the response and the resulting token cache. -/
def beginHandshake (oauthConfigured : Bool) (cache : TokenCache)
    (resp : Option UpstreamResp) : BeginResult × TokenCache :=
  if oauthConfigured then
    match resp with
    | none => (.upstreamUnavailable, cache)
    | some r =>
      if r.ok then
        match mapGet r.params "oauth_token", mapGet r.params "oauth_token_secret" with
        | some t, some s =>
          if t = "" || s = "" then (.malformedUpstream, cache)
          else (.ok (TWITTER_AUTHORIZE_URL ++ "?oauth_token=" ++ t), mapSet cache t s)
        | _, _ => (.malformedUpstream, cache)
      else (.upstreamUnavailable, cache)
  else (.notConfigured, cache)

/-- Decoded JSON body of the `verify_credentials` profile fetch. -/
structure Profile where
  id_str : String
  screen_name : String
  name : String
  profile_image_url_https : String
deriving DecidableEq

/-- The profile-fetch response: `response.ok` plus the decoded body. -/
structure UserResp where
  ok : Bool
  profile : Profile
deriving DecidableEq

/-- Redirect issued by GET /api/auth/twitter/callback, identified by its
`?error=` code (or the success parameter set). -/
inductive CallbackResult where
  /-- `?error=missing_oauth_params`. -/
  | missingParams
  /-- `?error=invalid_token` (`UnknownOrExpiredToken`). -/
  | invalidToken
  /-- `?error=access_token_failed`. -/
  | accessTokenFailed
  /-- `?error=invalid_access_token`. -/
  | invalidAccessToken
  /-- `?error=user_info_failed`. -/
  | userInfoFailed
  /-- `?error=callback_failed` (an exception, e.g. a fetch that threw). -/
  | callbackFailed
  /-- `?auth=success&...` with the profile fields. -/
  | success (p : Profile)
deriving DecidableEq

/-- JS falsiness of an optional query/body string: absent or empty. -/
def falsyOpt : Option String → Bool
  | none => true
  | some s => s = ""

/-- The part of the callback after the cache entry has been deleted: the
access-token exchange and the profile fetch. It never touches the cache.
`accessResp`/`userResp` equal to `none` model the fetch throwing (caught
by the surrounding try, yielding `callback_failed`). -/
def completeExchange (accessResp : Option UpstreamResp) (userResp : Option UserResp) :
    CallbackResult :=
  match accessResp with
  | none => .callbackFailed
  | some a =>
    if a.ok then
      match mapGet a.params "oauth_token", mapGet a.params "oauth_token_secret" with
      | some atk, some ats =>
        if atk = "" || ats = "" then .invalidAccessToken
        else
          match userResp with
          | none => .callbackFailed
          | some u => if u.ok then .success u.profile else .userInfoFailed
      | _, _ => .invalidAccessToken
    else .accessTokenFailed

/-- The GET /api/auth/twitter/callback handler (`completeHandshake`):
checks the query parameters, looks the request token up in the cache
(an absent — or falsy empty — secret redirects with `invalid_token`),
deletes the cache entry, and only then performs the exchange. Returns the
redirect and the resulting cache. -/
def completeHandshake (cache : TokenCache) (oauth_token oauth_verifier : Option String)
    (accessResp : Option UpstreamResp) (userResp : Option UserResp) :
    CallbackResult × TokenCache :=
  if falsyOpt oauth_token || falsyOpt oauth_verifier then (.missingParams, cache)
  else
    let t := oauth_token.getD ""
    match mapGet cache t with
    | none => (.invalidToken, cache)
    | some secret =>
      if secret = "" then (.invalidToken, cache)
      else (completeExchange accessResp userResp, mapDelete cache t)

/-! ### Leaderboard routes -/

/-- One entry of the hardcoded leaderboard lists. -/
structure LeaderEntry where
  rank : Nat
  raider : String
  score : Nat
deriving DecidableEq

/-- The literal array served by GET /api/top-raiders. -/
def topRaidersData : List LeaderEntry :=
  [⟨1, "RaiderAlpha", 980⟩, ⟨2, "RaiderBeta", 870⟩, ⟨3, "RaiderGamma", 820⟩,
   ⟨4, "RaiderDelta", 800⟩, ⟨5, "RaiderEpsilon", 780⟩, ⟨6, "RaiderZeta", 760⟩,
   ⟨7, "RaiderEta", 740⟩, ⟨8, "RaiderTheta", 720⟩, ⟨9, "RaiderIota", 700⟩,
   ⟨10, "RaiderKappa", 680⟩]

/-- An incoming HTTP request, as far as the leaderboard handlers could
observe it. -/
structure HttpRequest where
  query : List (String × String)
  headers : List (String × String)

/-- The GET /api/top-raiders handler: ignores the request entirely and
responds 200 with the fixed data. -/
def topRaidersHandler (_req : HttpRequest) : List LeaderEntry :=
  topRaidersData

/-! ### Helper lemmas -/

theorem toList_ne_nil_of_ne_empty {s : String} (h : s ≠ "") : s.toList ≠ [] := by
  intro hnil
  apply h
  cases s with
  | mk data =>
    simp only [String.toList] at hnil
    subst hnil
    rfl

theorem ne_empty_of_toList_ne_nil {s : String} (h : s.toList ≠ []) : s ≠ "" := by
  intro hempty
  subst hempty
  exact h rfl

theorem string_length_toList (s : String) : s.length = s.toList.length := rfl

end Madcat

namespace Madcat

/-- C9: GET /api/top-raiders returns exactly 10 entries ranked 1 through 10
in descending score order, and the response is the same fixed list for
every request regardless of input or state. -/
theorem c9_top_raiders_fixed (r r' : HttpRequest) :
    topRaidersHandler r = topRaidersHandler r' ∧
    (topRaidersHandler r).length = 10 ∧
    (topRaidersHandler r).map LeaderEntry.rank = [1, 2, 3, 4, 5, 6, 7, 8, 9, 10] ∧
    (topRaidersHandler r).Chain' (fun a b => b.score < a.score) := by
  refine ⟨rfl, ?_, ?_, ?_⟩
  · simp only [topRaidersHandler]; decide
  · simp only [topRaidersHandler]; decide
  · simp [topRaidersHandler, topRaidersData, List.chain'_cons]

theorem walletAddressErrors_eq_nil_iff (v : String) :
    walletAddressErrors v = [] ↔ (v ≠ "" ∧ v.length = 42 ∧ walletMatches v = true) := by
  unfold walletAddressErrors
  split_ifs <;> simp_all

theorem walletMatches_eq_true_iff (v : String) :
    walletMatches v = true ↔
      (v.toList.take 2 = ['0', 'x'] ∧ (v.toList.drop 2).length = 40 ∧
        ∀ c ∈ v.toList.drop 2, isHexChar c = true) := by
  unfold walletMatches
  match h : v.toList with
  | [] => simp
  | [c] => simp
  | c1 :: c2 :: rest =>
    simp [List.all_eq_true, and_assoc]

/-- C5: wallet-address validation accepts an input iff it is exactly 42
characters consisting of `0x` followed by 40 hex digits (so 41- and
43-character strings, and 42-character strings with a non-hex character
after `0x`, are all rejected). -/
theorem c5_wallet_validation_iff (s : String) :
    walletAddressErrors s = [] ↔
      (s.length = 42 ∧ s.toList.take 2 = ['0', 'x'] ∧
        ∀ c ∈ s.toList.drop 2, isHexChar c = true) := by
  rw [walletAddressErrors_eq_nil_iff, walletMatches_eq_true_iff]
  constructor
  · rintro ⟨-, hlen, htake, hdrop, hall⟩
    exact ⟨hlen, htake, hall⟩
  · rintro ⟨hlen, htake, hall⟩
    have hlen' : s.toList.length = 42 := by rw [← string_length_toList]; exact hlen
    refine ⟨?_, hlen, htake, ?_, hall⟩
    · exact ne_empty_of_toList_ne_nil (by intro hnil; rw [hnil] at hlen'; simp at hlen')
    · simp only [List.length_drop, hlen']

theorem stripSign_cases (cs : List Char) :
    stripSign cs = cs ∨ ∃ c0, (c0 = '+' ∨ c0 = '-') ∧ cs = c0 :: stripSign cs := by
  unfold stripSign
  match cs with
  | [] => exact Or.inl rfl
  | c :: rest =>
    by_cases h : c = '+' ∨ c = '-'
    · right
      refine ⟨c, h, ?_⟩
      have : (c = '+' || c = '-') = true := by
        rcases h with h | h <;> simp [h]
      simp [this]
    · left
      push_neg at h
      simp [h.1, h.2]

theorem numericList_of_all_digits {cs : List Char} (h1 : cs ≠ [])
    (h2 : ∀ c ∈ cs, c.isDigit = true) : numericList cs = true := by
  unfold numericList
  have hdrop : cs.dropWhile Char.isDigit = [] := List.dropWhile_eq_nil_iff.mpr h2
  simp [hdrop, h1]

theorem numericList_chars {cs : List Char} (h : numericList cs = true) :
    ∀ c ∈ cs, c.isDigit = true ∨ c = '.' := by
  intro c hc
  unfold numericList at h
  have hsplit : cs.takeWhile Char.isDigit ++ cs.dropWhile Char.isDigit = cs :=
    List.takeWhile_append_dropWhile Char.isDigit cs
  match hd : cs.dropWhile Char.isDigit with
  | [] =>
    rw [hd, List.append_nil] at hsplit
    rw [← hsplit] at hc
    exact Or.inl (List.mem_takeWhile_imp hc)
  | d :: rest =>
    rw [hd] at h hsplit
    simp only [Bool.and_eq_true, decide_eq_true_eq, List.all_eq_true] at h
    obtain ⟨⟨hdot, -⟩, hrest⟩ := h
    rw [← hsplit] at hc
    rcases List.mem_append.mp hc with hmem | hmem
    · exact Or.inl (List.mem_takeWhile_imp hmem)
    · rcases List.mem_cons.mp hmem with rfl | hmem
      · exact Or.inr hdot
      · exact Or.inl (hrest c hmem)

theorem isNumericDefault_of_all_digits {s : String} (h1 : s.toList ≠ [])
    (h2 : s.toList.all Char.isDigit = true) : isNumericDefault s = true := by
  unfold isNumericDefault
  rw [List.all_eq_true] at h2
  have hstrip : stripSign s.toList = s.toList := by
    rcases stripSign_cases s.toList with heq | ⟨c0, hc0, hcons⟩
    · exact heq
    · exfalso
      have : c0.isDigit = true := h2 c0 (hcons ▸ List.mem_cons_self c0 _)
      rcases hc0 with rfl | rfl <;> exact absurd this (by decide)
  rw [hstrip]
  exact numericList_of_all_digits h1 h2

theorem isNumericDefault_chars {s : String} (h : isNumericDefault s = true) :
    ∀ c ∈ s.toList, c.isDigit = true ∨ c = '+' ∨ c = '-' ∨ c = '.' := by
  intro c hc
  unfold isNumericDefault at h
  rcases stripSign_cases s.toList with heq | ⟨c0, hc0, hcons⟩
  · rw [heq] at h
    rcases numericList_chars h c hc with hd | hd
    · exact Or.inl hd
    · exact Or.inr (Or.inr (Or.inr hd))
  · rw [hcons] at hc
    rcases List.mem_cons.mp hc with rfl | hmem
    · rcases hc0 with rfl | rfl
      · exact Or.inr (Or.inl rfl)
      · exact Or.inr (Or.inr (Or.inl rfl))
    · rcases numericList_chars h c hmem with hd | hd
      · exact Or.inl hd
      · exact Or.inr (Or.inr (Or.inr hd))

theorem twitterIdErrors_eq_nil_iff (v : String) :
    twitterIdErrors v = [] ↔
      (v ≠ "" ∧ isNumericDefault v = true ∧ 1 ≤ v.length ∧ v.length ≤ 20) := by
  unfold twitterIdErrors
  split_ifs <;> simp_all

/-- C6 counterexample: the claim says providerId validation rejects every
string containing a character other than a digit, but `"1.5"` — which
contains the non-digit characters `.` — passes the chain (validator.js
`isNumeric` accepts an optional sign and decimal point by default). -/
theorem c6_counterexample :
    twitterIdErrors "1.5" = [] ∧ '.' ∈ "1.5".toList ∧ ('.').isDigit = false := by
  refine ⟨by decide, by decide, by decide⟩

/-- C6 (amended): providerId validation accepts every non-empty all-digit
string of length at most 20 (in particular "123456789012345"), rejects
"abc123", and anything it accepts has length 1–20 and consists only of
digits, `+`, `-`, and `.` — but not of digits alone, as the `isNumeric`
check also admits a leading sign and one decimal point. -/
theorem c6_providerId_validation_amended (s : String) :
    (s ≠ "" → s.toList.all Char.isDigit = true → s.length ≤ 20 → twitterIdErrors s = []) ∧
    (twitterIdErrors s = [] →
      1 ≤ s.length ∧ s.length ≤ 20 ∧
        ∀ c ∈ s.toList, c.isDigit = true ∨ c = '+' ∨ c = '-' ∨ c = '.') ∧
    twitterIdErrors "abc123" ≠ [] ∧ twitterIdErrors "123456789012345" = [] := by
  refine ⟨?_, ?_, by decide, by decide⟩
  · intro h1 h2 h3
    rw [twitterIdErrors_eq_nil_iff]
    have hne : s.toList ≠ [] := toList_ne_nil_of_ne_empty h1
    refine ⟨h1, isNumericDefault_of_all_digits hne h2, ?_, h3⟩
    rw [string_length_toList]
    exact List.length_pos.mpr hne
  · intro h
    rw [twitterIdErrors_eq_nil_iff] at h
    exact ⟨h.2.2.1, h.2.2.2, isNumericDefault_chars h.2.1⟩

/-- Witness for the amended C6 theorem at "123456789012345". -/
theorem c6_providerId_validation_amended_witness :
    twitterIdErrors "123456789012345" = [] ∧
      (1 ≤ String.length "123456789012345" ∧ String.length "123456789012345" ≤ 20 ∧
        ∀ c ∈ "123456789012345".toList,
          c.isDigit = true ∨ c = '+' ∨ c = '-' ∨ c = '.') := by
  have h := c6_providerId_validation_amended "123456789012345"
  exact ⟨h.1 (by decide) (by decide) (by decide),
    h.2.1 (h.1 (by decide) (by decide) (by decide))⟩

theorem telegram_required_mem {inp : RegInput} (h : inp.telegram_username = "") :
    FieldError.mk "telegram_username" "Telegram username is required" ∈ validateRegistration inp := by
  unfold validateRegistration telegramUsernameErrors
  rw [h]
  simp

/-- C7 counterexample: a chatHandle consisting of a single space is empty
after trimming, yet the validation chain reports no error at all for it
(the `trim` sanitizer runs after `notEmpty`/`isLength`); register rejects
it through the defensive missing-required-fields check instead of with a
field-level `ValidationFailed`. -/
theorem c7_counterexample :
    validateRegistration
        ⟨"42", none, none, " ", "0xaaaaaaaaaaaaaaaaaaaaaaaaaaaaaaaaaaaaaaaa"⟩ = [] ∧
    register [] 0 ⟨"42", none, none, " ", "0xaaaaaaaaaaaaaaaaaaaaaaaaaaaaaaaaaaaaaaaa"⟩
        .success = (.missingFields, []) := by
  exact ⟨by decide, by decide⟩

/-- C7 (amended): a registration whose chatHandle is empty after trimming
inserts no row and never succeeds; when the chatHandle is literally the
empty string the rejection is `ValidationFailed` with the field-level
chatHandle message, but when it is non-empty whitespace (and the rest of
the body is valid) field validation passes — `trim` runs after the
checks — and the rejection is the 400 missing-required-fields error of
the handler's defensive re-check. -/
theorem c7_chatHandle_whitespace_amended (db : List UserRow) (now : Nat) (inp : RegInput)
    (out : InsertOutcome) (h : jsTrim inp.telegram_username = "") :
    (register db now inp out).snd = db ∧
    ((register db now inp out).fst).isSuccess = false ∧
    (inp.telegram_username = "" →
      (register db now inp out).fst = .validationFailed (validateRegistration inp) ∧
      FieldError.mk "telegram_username" "Telegram username is required" ∈ validateRegistration inp) ∧
    (inp.telegram_username ≠ "" → validateRegistration inp = [] →
      (register db now inp out).fst = .missingFields) := by
  cases hE : (validateRegistration inp).isEmpty with
  | true =>
    have hreg : register db now inp out = (.missingFields, db) := by
      simp [register, hE, h]
    refine ⟨by rw [hreg], by rw [hreg]; rfl, ?_, fun _ _ => by rw [hreg]⟩
    intro htel
    exfalso
    have hmem := telegram_required_mem htel
    rw [List.isEmpty_iff] at hE
    rw [hE] at hmem
    exact List.not_mem_nil _ hmem
  | false =>
    have hreg : register db now inp out = (.validationFailed (validateRegistration inp), db) := by
      simp [register, hE]
    refine ⟨by rw [hreg], by rw [hreg]; rfl, ?_, ?_⟩
    · intro htel
      exact ⟨by rw [hreg], telegram_required_mem htel⟩
    · intro _ hval
      rw [hval] at hE
      simp at hE

/-- Witness for the amended C7 theorem at the single-space chatHandle. -/
theorem c7_chatHandle_whitespace_amended_witness :
    (register [] 0 ⟨"42", none, none, " ", "0xaaaaaaaaaaaaaaaaaaaaaaaaaaaaaaaaaaaaaaaa"⟩
        .success).snd = ([] : List UserRow) ∧
    ((register [] 0 ⟨"42", none, none, " ", "0xaaaaaaaaaaaaaaaaaaaaaaaaaaaaaaaaaaaaaaaa"⟩
        .success).fst).isSuccess = false ∧
    (register [] 0 ⟨"42", none, none, " ", "0xaaaaaaaaaaaaaaaaaaaaaaaaaaaaaaaaaaaaaaaa"⟩
        .success).fst = .missingFields := by
  have h := c7_chatHandle_whitespace_amended [] 0
    ⟨"42", none, none, " ", "0xaaaaaaaaaaaaaaaaaaaaaaaaaaaaaaaaaaaaaaaa"⟩ .success (by decide)
  exact ⟨h.1, h.2.1, h.2.2.2 (by decide) (by decide)⟩

theorem validate_parts {inp : RegInput} (h : validateRegistration inp = []) :
    twitterIdErrors inp.twitter_id = [] ∧ walletAddressErrors inp.wallet_address = [] := by
  unfold validateRegistration at h
  simp only [List.append_eq_nil] at h
  exact ⟨h.1.1.1, h.2⟩

theorem required_nonempty {inp : RegInput} (h : validateRegistration inp = []) :
    inp.twitter_id ≠ "" ∧ inp.wallet_address ≠ "" := by
  obtain ⟨h1, h2⟩ := validate_parts h
  constructor
  · intro he; rw [he] at h1; exact absurd h1 (by decide)
  · intro he; rw [he] at h2; exact absurd h2 (by decide)

/-- C2: an otherwise valid registration that shares any single field
(providerId, chatHandle, or walletAddress) with an existing row fails with
the 400 DuplicateIdentity error and leaves the table unchanged, whatever
the storage engine would have answered; and an insert-time
unique-constraint violation (a race past the existence check) is
re-reported as the 400 duplicate error, not as a generic 500 failure, also
leaving the table unchanged. -/
theorem c2_register_duplicate (db db2 : List UserRow) (now now2 : Nat)
    (inp inp2 : RegInput) (out : InsertOutcome)
    (hval : validateRegistration inp = [])
    (htel : jsTrim inp.telegram_username ≠ "")
    (hcol : collisionExists db inp.twitter_id (jsTrim inp.telegram_username)
      inp.wallet_address = true)
    (hval2 : validateRegistration inp2 = [])
    (htel2 : jsTrim inp2.telegram_username ≠ "")
    (hcol2 : collisionExists db2 inp2.twitter_id (jsTrim inp2.telegram_username)
      inp2.wallet_address = false) :
    register db now inp out = (.duplicateIdentity, db) ∧
    RegisterResult.duplicateIdentity.httpStatus = 400 ∧
    register db2 now2 inp2 .uniqueViolation = (.duplicateAtInsert, db2) ∧
    RegisterResult.duplicateAtInsert.httpStatus = 400 ∧
    (∀ msg, (RegisterResult.storageError msg).httpStatus = 500) := by
  obtain ⟨h1, h2⟩ := required_nonempty hval
  obtain ⟨h1', h2'⟩ := required_nonempty hval2
  refine ⟨?_, rfl, ?_, rfl, fun _ => rfl⟩
  · simp [register, hval, h1, h2, htel, hcol]
  · simp [register, hval2, h1', h2', htel2, hcol2]

/-- Witness for C2: a registration colliding only on twitter_id against a
one-row table, and an insert-time unique violation on an empty table. -/
theorem c2_register_duplicate_witness :
    register [⟨1, "42", none, none, "alice", "0xaaaaaaaaaaaaaaaaaaaaaaaaaaaaaaaaaaaaaaaa", 0, 0⟩]
        7 ⟨"42", none, none, "bob", "0xbbbbbbbbbbbbbbbbbbbbbbbbbbbbbbbbbbbbbbbb"⟩ .success =
      (.duplicateIdentity,
        [⟨1, "42", none, none, "alice", "0xaaaaaaaaaaaaaaaaaaaaaaaaaaaaaaaaaaaaaaaa", 0, 0⟩]) ∧
    RegisterResult.duplicateIdentity.httpStatus = 400 ∧
    register [] 7 ⟨"43", none, none, "carol", "0xcccccccccccccccccccccccccccccccccccccccc"⟩
        .uniqueViolation = (.duplicateAtInsert, []) ∧
    RegisterResult.duplicateAtInsert.httpStatus = 400 ∧
    (∀ msg, (RegisterResult.storageError msg).httpStatus = 500) := by
  exact c2_register_duplicate
    [⟨1, "42", none, none, "alice", "0xaaaaaaaaaaaaaaaaaaaaaaaaaaaaaaaaaaaaaaaa", 0, 0⟩] [] 7 7
    ⟨"42", none, none, "bob", "0xbbbbbbbbbbbbbbbbbbbbbbbbbbbbbbbbbbbbbbbb"⟩
    ⟨"43", none, none, "carol", "0xcccccccccccccccccccccccccccccccccccccccc"⟩ .success
    (by decide) (by decide) (by decide) (by decide) (by decide) (by decide)

/-- C1: a valid registration whose three identifiers collide with no
existing row inserts exactly one new row carrying the submitted fields and
the current timestamp for both `created_at` and `updated_at`, returns that
row with success, and the row is among those returned by the admin listing
run with matching credentials. -/
theorem c1_register_success (db : List UserRow) (now : Nat) (inp : RegInput) (aU aP : String)
    (hval : validateRegistration inp = [])
    (htel : jsTrim inp.telegram_username ≠ "")
    (hcol : collisionExists db inp.twitter_id (jsTrim inp.telegram_username)
      inp.wallet_address = false) :
    ∃ row : UserRow,
      register db now inp .success = (.success row, db ++ [row]) ∧
      row.twitter_id = inp.twitter_id ∧
      row.twitter_username = inp.twitter_username ∧
      row.twitter_name = inp.twitter_name ∧
      row.telegram_username = jsTrim inp.telegram_username ∧
      row.wallet_address = inp.wallet_address ∧
      row.created_at = now ∧ row.updated_at = now ∧
      ∃ l, listUsers aU aP (db ++ [row]) aU aP = .ok l ∧ row ∈ l := by
  obtain ⟨h1, h2⟩ := required_nonempty hval
  refine ⟨⟨db.length + 1, inp.twitter_id, inp.twitter_username, inp.twitter_name,
    jsTrim inp.telegram_username, inp.wallet_address, now, now⟩,
    ?_, rfl, rfl, rfl, rfl, rfl, rfl, rfl, ?_⟩
  · simp [register, hval, h1, h2, htel, hcol]
  · refine ⟨sortByCreatedDesc (db ++
      [⟨db.length + 1, inp.twitter_id, inp.twitter_username, inp.twitter_name,
        jsTrim inp.telegram_username, inp.wallet_address, now, now⟩]), ?_, ?_⟩
    · simp [listUsers]
    · rw [sortByCreatedDesc]
      exact (List.perm_insertionSort _ _).mem_iff.mpr (by simp)

/-- Witness for C1 on an empty table. -/
theorem c1_register_success_witness :
    ∃ row : UserRow,
      register [] 5 ⟨"42", none, none, "alice", "0xaaaaaaaaaaaaaaaaaaaaaaaaaaaaaaaaaaaaaaaa"⟩
          .success = (.success row, [] ++ [row]) ∧
      row.twitter_id = RegInput.twitter_id
          ⟨"42", none, none, "alice", "0xaaaaaaaaaaaaaaaaaaaaaaaaaaaaaaaaaaaaaaaa"⟩ ∧
      row.twitter_username = RegInput.twitter_username
          ⟨"42", none, none, "alice", "0xaaaaaaaaaaaaaaaaaaaaaaaaaaaaaaaaaaaaaaaa"⟩ ∧
      row.twitter_name = RegInput.twitter_name
          ⟨"42", none, none, "alice", "0xaaaaaaaaaaaaaaaaaaaaaaaaaaaaaaaaaaaaaaaa"⟩ ∧
      row.telegram_username = jsTrim (RegInput.telegram_username
          ⟨"42", none, none, "alice", "0xaaaaaaaaaaaaaaaaaaaaaaaaaaaaaaaaaaaaaaaa"⟩) ∧
      row.wallet_address = RegInput.wallet_address
          ⟨"42", none, none, "alice", "0xaaaaaaaaaaaaaaaaaaaaaaaaaaaaaaaaaaaaaaaa"⟩ ∧
      row.created_at = 5 ∧ row.updated_at = 5 ∧
      ∃ l, listUsers "admin" "password123" ([] ++ [row]) "admin" "password123" = .ok l ∧
        row ∈ l := by
  exact c1_register_success [] 5
    ⟨"42", none, none, "alice", "0xaaaaaaaaaaaaaaaaaaaaaaaaaaaaaaaaaaaaaaaa"⟩
    "admin" "password123" (by decide) (by decide) (by decide)

/-- C4: the POST /api/users handler with matching credentials returns all
rows (a permutation of the table) ordered by `created_at` descending, and
with any mismatched username or password returns the data-free 401
Unauthorized — the same response for either kind of mismatch. -/
theorem c4_admin_listing (aU aP : String) (db : List UserRow) (u p : String)
    (hmis : u ≠ aU ∨ p ≠ aP) :
    listUsers aU aP db aU aP = .ok (sortByCreatedDesc db) ∧
    List.Perm (sortByCreatedDesc db) db ∧
    (sortByCreatedDesc db).Sorted byCreatedDesc ∧
    listUsers aU aP db u p = .unauthorized := by
  refine ⟨by simp [listUsers], List.perm_insertionSort _ _,
    List.sorted_insertionSort _ _, ?_⟩
  rw [listUsers, if_pos hmis]

/-- Witness for C4 on a two-row table with a wrong password. -/
theorem c4_admin_listing_witness :
    listUsers "admin" "password123"
        [⟨1, "42", none, none, "alice", "0xaaaaaaaaaaaaaaaaaaaaaaaaaaaaaaaaaaaaaaaa", 3, 3⟩,
         ⟨2, "43", none, none, "bob", "0xbbbbbbbbbbbbbbbbbbbbbbbbbbbbbbbbbbbbbbbb", 7, 7⟩]
        "admin" "password123" =
      .ok (sortByCreatedDesc
        [⟨1, "42", none, none, "alice", "0xaaaaaaaaaaaaaaaaaaaaaaaaaaaaaaaaaaaaaaaa", 3, 3⟩,
         ⟨2, "43", none, none, "bob", "0xbbbbbbbbbbbbbbbbbbbbbbbbbbbbbbbbbbbbbbbb", 7, 7⟩]) ∧
    List.Perm (sortByCreatedDesc
        [⟨1, "42", none, none, "alice", "0xaaaaaaaaaaaaaaaaaaaaaaaaaaaaaaaaaaaaaaaa", 3, 3⟩,
         ⟨2, "43", none, none, "bob", "0xbbbbbbbbbbbbbbbbbbbbbbbbbbbbbbbbbbbbbbbb", 7, 7⟩])
      [⟨1, "42", none, none, "alice", "0xaaaaaaaaaaaaaaaaaaaaaaaaaaaaaaaaaaaaaaaa", 3, 3⟩,
       ⟨2, "43", none, none, "bob", "0xbbbbbbbbbbbbbbbbbbbbbbbbbbbbbbbbbbbbbbbb", 7, 7⟩] ∧
    (sortByCreatedDesc
        [⟨1, "42", none, none, "alice", "0xaaaaaaaaaaaaaaaaaaaaaaaaaaaaaaaaaaaaaaaa", 3, 3⟩,
         ⟨2, "43", none, none, "bob", "0xbbbbbbbbbbbbbbbbbbbbbbbbbbbbbbbbbbbbbbbb", 7, 7⟩]).Sorted
      byCreatedDesc ∧
    listUsers "admin" "password123"
        [⟨1, "42", none, none, "alice", "0xaaaaaaaaaaaaaaaaaaaaaaaaaaaaaaaaaaaaaaaa", 3, 3⟩,
         ⟨2, "43", none, none, "bob", "0xbbbbbbbbbbbbbbbbbbbbbbbbbbbbbbbbbbbbbbbb", 7, 7⟩]
        "admin" "wrongpass99" = .unauthorized := by
  exact c4_admin_listing "admin" "password123"
    [⟨1, "42", none, none, "alice", "0xaaaaaaaaaaaaaaaaaaaaaaaaaaaaaaaaaaaaaaaa", 3, 3⟩,
     ⟨2, "43", none, none, "bob", "0xbbbbbbbbbbbbbbbbbbbbbbbbbbbbbbbbbbbbbbbb", 7, 7⟩]
    "admin" "wrongpass99" (by decide)

theorem mapGet_eq_none_of_not_mem {m : TokenCache} {k : String}
    (h : k ∉ m.map Prod.fst) : mapGet m k = none := by
  induction m with
  | nil => rfl
  | cons kv rest ih =>
    obtain ⟨k', v⟩ := kv
    simp only [List.map_cons, List.mem_cons, not_or] at h
    have hne : ¬ k' = k := fun he => h.1 he.symm
    simp only [mapGet, if_neg hne]
    exact ih h.2

theorem mapGet_mapDelete_self {m : TokenCache} {k : String}
    (h : (m.map Prod.fst).Nodup) : mapGet (mapDelete m k) k = none := by
  induction m with
  | nil => rfl
  | cons kv rest ih =>
    obtain ⟨k', v⟩ := kv
    simp only [List.map_cons, List.nodup_cons] at h
    obtain ⟨hnotin, hnd⟩ := h
    by_cases he : k' = k
    · subst he
      simp only [mapDelete, if_pos rfl]
      exact mapGet_eq_none_of_not_mem hnotin
    · simp only [mapDelete, if_neg he, mapGet]
      exact ih hnd

theorem mapGet_mapSet_self (m : TokenCache) (k v : String) :
    mapGet (mapSet m k v) k = some v := by
  induction m with
  | nil => simp [mapSet, mapGet]
  | cons kv rest ih =>
    obtain ⟨k', v'⟩ := kv
    by_cases he : k' = k
    · subst he
      simp [mapSet, mapGet]
    · simp only [mapSet, if_neg he, mapGet]
      exact ih

/-- C3: once a stored request token is presented to the callback, its
cache entry is removed before the access-token exchange even begins (the
resulting cache is the deleted one whatever the two upstream calls do), a
lookup of the token in the resulting cache fails, a second callback with
the same token is rejected with the invalid-token (UnknownOrExpiredToken)
redirect and leaves the cache as it was, and presenting a token that is
absent from any cache always yields that same rejection, never a stale
secret. -/
theorem c3_handshake_single_use (cache : TokenCache) (t v v' s : String)
    (a1 a2 : Option UpstreamResp) (u1 u2 : Option UserResp) (m : TokenCache)
    (hnd : (cache.map Prod.fst).Nodup)
    (hlook : mapGet cache t = some s) (hs : s ≠ "")
    (ht : t ≠ "") (hv : v ≠ "") (hv' : v' ≠ "")
    (hm : mapGet m t = none) :
    (completeHandshake cache (some t) (some v) a1 u1).snd = mapDelete cache t ∧
    mapGet (completeHandshake cache (some t) (some v) a1 u1).snd t = none ∧
    completeHandshake (completeHandshake cache (some t) (some v) a1 u1).snd
        (some t) (some v') a2 u2 =
      (.invalidToken, (completeHandshake cache (some t) (some v) a1 u1).snd) ∧
    completeHandshake m (some t) (some v') a2 u2 = (.invalidToken, m) := by
  have h1 : completeHandshake cache (some t) (some v) a1 u1 =
      (completeExchange a1 u1, mapDelete cache t) := by
    simp [completeHandshake, falsyOpt, ht, hv, hlook, hs]
  have h2 : mapGet (mapDelete cache t) t = none := mapGet_mapDelete_self hnd
  refine ⟨by rw [h1], by rw [h1]; exact h2, ?_, ?_⟩
  · rw [h1]
    simp [completeHandshake, falsyOpt, ht, hv', h2]
  · simp [completeHandshake, falsyOpt, ht, hv', hm]

/-- Witness for C3: a one-entry cache, with both upstream calls of the
first callback failing (fetch throws). -/
theorem c3_handshake_single_use_witness :
    (completeHandshake [("tok", "sec")] (some "tok") (some "ver") none none).snd =
      mapDelete [("tok", "sec")] "tok" ∧
    mapGet (completeHandshake [("tok", "sec")] (some "tok") (some "ver") none none).snd
      "tok" = none ∧
    completeHandshake (completeHandshake [("tok", "sec")] (some "tok") (some "ver") none none).snd
        (some "tok") (some "ver2") none none =
      (.invalidToken,
        (completeHandshake [("tok", "sec")] (some "tok") (some "ver") none none).snd) ∧
    completeHandshake [] (some "tok") (some "ver2") none none = (.invalidToken, []) := by
  exact c3_handshake_single_use [("tok", "sec")] "tok" "ver" "ver2" "sec" none none none none []
    (by decide) (by decide) (by decide) (by decide) (by decide) (by decide) (by decide)

/-- C8: with credentials configured, a 2xx request-token response carrying
non-empty `oauth_token` and `oauth_token_secret` makes beginHandshake
store the secret in the cache under the token and return the authorize URL
`TWITTER_AUTHORIZE_URL + "?oauth_token=" + token`; a failed fetch or a
non-2xx status yields the UpstreamUnavailable 500 and an absent field
yields the MalformedUpstreamResponse 500, in both cases leaving the cache
unchanged. -/
theorem c8_begin_handshake (cache cache2 cache3 cache4 : TokenCache) (t s : String)
    (ps psm : List (String × String)) (rFail : UpstreamResp)
    (ht : mapGet ps "oauth_token" = some t) (hs : mapGet ps "oauth_token_secret" = some s)
    (ht' : t ≠ "") (hs' : s ≠ "") (hFail : rFail.ok = false)
    (hm : mapGet psm "oauth_token" = none ∨ mapGet psm "oauth_token_secret" = none) :
    beginHandshake true cache (some ⟨true, ps⟩) =
      (.ok (TWITTER_AUTHORIZE_URL ++ "?oauth_token=" ++ t), mapSet cache t s) ∧
    mapGet (mapSet cache t s) t = some s ∧
    beginHandshake true cache2 none = (.upstreamUnavailable, cache2) ∧
    beginHandshake true cache3 (some rFail) = (.upstreamUnavailable, cache3) ∧
    beginHandshake true cache4 (some ⟨true, psm⟩) = (.malformedUpstream, cache4) := by
  refine ⟨?_, mapGet_mapSet_self cache t s, rfl, ?_, ?_⟩
  · simp [beginHandshake, ht, hs, ht', hs']
  · simp [beginHandshake, hFail]
  · cases hx : mapGet psm "oauth_token" with
    | none =>
      cases hy : mapGet psm "oauth_token_secret" <;> simp [beginHandshake, hx, hy]
    | some a =>
      rcases hm with hm | hm
      · rw [hm] at hx
        exact absurd hx (by simp)
      · simp [beginHandshake, hx, hm]

/-- Witness for C8 with concrete upstream responses. -/
theorem c8_begin_handshake_witness :
    beginHandshake true [] (some ⟨true, [("oauth_token", "tok"), ("oauth_token_secret", "sec")]⟩) =
      (.ok (TWITTER_AUTHORIZE_URL ++ "?oauth_token=" ++ "tok"), mapSet [] "tok" "sec") ∧
    mapGet (mapSet [] "tok" "sec") "tok" = some "sec" ∧
    beginHandshake true [("a", "b")] none = (.upstreamUnavailable, [("a", "b")]) ∧
    beginHandshake true [] (some ⟨false, []⟩) = (.upstreamUnavailable, []) ∧
    beginHandshake true [] (some ⟨true, [("oauth_token", "tok")]⟩) = (.malformedUpstream, []) := by
  exact c8_begin_handshake [] [("a", "b")] [] [] "tok" "sec"
    [("oauth_token", "tok"), ("oauth_token_secret", "sec")] [("oauth_token", "tok")] ⟨false, []⟩
    (by decide) (by decide) (by decide) (by decide) (by decide) (Or.inr (by decide))

theorem escChar_no_html (c : Char) :
    ∀ d ∈ escChar c, d ≠ '<' ∧ d ≠ '>' ∧ d ≠ aposChar ∧ d ≠ quoteChar := by
  intro d hd
  unfold escChar at hd
  split_ifs at hd with h1 h2 h3 h4 h5 h6 h7 h8
  · exact (by decide : ∀ x ∈ ['&', 'a', 'm', 'p', ';'],
      x ≠ '<' ∧ x ≠ '>' ∧ x ≠ aposChar ∧ x ≠ quoteChar) d hd
  · exact (by decide : ∀ x ∈ ['&', 'q', 'u', 'o', 't', ';'],
      x ≠ '<' ∧ x ≠ '>' ∧ x ≠ aposChar ∧ x ≠ quoteChar) d hd
  · exact (by decide : ∀ x ∈ ['&', '#', 'x', '2', '7', ';'],
      x ≠ '<' ∧ x ≠ '>' ∧ x ≠ aposChar ∧ x ≠ quoteChar) d hd
  · exact (by decide : ∀ x ∈ ['&', 'l', 't', ';'],
      x ≠ '<' ∧ x ≠ '>' ∧ x ≠ aposChar ∧ x ≠ quoteChar) d hd
  · exact (by decide : ∀ x ∈ ['&', 'g', 't', ';'],
      x ≠ '<' ∧ x ≠ '>' ∧ x ≠ aposChar ∧ x ≠ quoteChar) d hd
  · exact (by decide : ∀ x ∈ ['&', '#', 'x', '2', 'F', ';'],
      x ≠ '<' ∧ x ≠ '>' ∧ x ≠ aposChar ∧ x ≠ quoteChar) d hd
  · exact (by decide : ∀ x ∈ ['&', '#', 'x', '5', 'C', ';'],
      x ≠ '<' ∧ x ≠ '>' ∧ x ≠ aposChar ∧ x ≠ quoteChar) d hd
  · exact (by decide : ∀ x ∈ ['&', '#', '9', '6', ';'],
      x ≠ '<' ∧ x ≠ '>' ∧ x ≠ aposChar ∧ x ≠ quoteChar) d hd
  · have hdc : d = c := by simpa using hd
    subst hdc
    exact ⟨h4, h5, h3, h2⟩

theorem jsEscape_no_html (s : String) :
    ∀ c ∈ (jsEscape s).toList, c ≠ '<' ∧ c ≠ '>' ∧ c ≠ aposChar ∧ c ≠ quoteChar := by
  intro c hc
  have h : (jsEscape s).toList = s.toList.flatMap escChar := rfl
  rw [h] at hc
  obtain ⟨a, -, hmem⟩ := List.mem_flatMap.mp hc
  exact escChar_no_html a c hmem

theorem jsEscape_ne_of_html {target : String}
    (h : ∃ c ∈ target.toList, c = '<' ∨ c = '>' ∨ c = aposChar ∨ c = quoteChar) :
    ∀ s, jsEscape s ≠ target := by
  intro s he
  obtain ⟨c, hc, hcs⟩ := h
  rw [← he] at hc
  have hno := jsEscape_no_html s c hc
  rcases hcs with h' | h' | h' | h'
  exacts [hno.1 h', hno.2.1 h', hno.2.2.1 h', hno.2.2.2 h']

/-- C10 counterexample: the configured admin username `a&amp;b` contains
`&` — one of the characters the escape step replaces — yet the submitted
username `a&b` escapes to exactly that string and authentication succeeds,
contradicting the claim that a configured username containing an escaped
character can never authenticate. -/
theorem c10_counterexample :
    '&' ∈ ("a&amp;b").toList ∧
    usersEndpoint "a&amp;b" "password123" [] "a&b" "password123" = .ok [] := by
  exact ⟨by decide, by decide⟩

/-- C10 (amended): the submitted username is compared after trimming and
HTML-entity escaping while the password is compared verbatim: a username
differing from the (escape-invariant) configured name only by surrounding
whitespace authenticates; a configured username containing `<`, `>`, `'`
or `"` is unreachable by any input since escape output never contains
those characters; but a configured name containing `&` can still be
matched when the `&` occurs inside an entity such as `&amp;`; and any
password differing from the configured one — even only by whitespace —
fails. -/
theorem c10_admin_username_escape_amended
    (aU aP : String) (db : List UserRow) (u p : String)
    (aU2 aP2 : String) (db2 : List UserRow)
    (aU3 aP3 : String) (db3 : List UserRow) (u3 p3 : String)
    (hverr : adminUsernameErrors u ++ adminPasswordErrors p = [])
    (htrim : jsTrim u = aU) (hesc : jsEscape aU = aU) (hp : p = aP)
    (hbad : ∃ c ∈ aU2.toList, c = '<' ∨ c = '>' ∨ c = aposChar ∨ c = quoteChar)
    (hp3 : p3 ≠ aP3) :
    usersEndpoint aU aP db u p = .ok (sortByCreatedDesc db) ∧
    (∀ u2 p2, (usersEndpoint aU2 aP2 db2 u2 p2).isOk = false) ∧
    (usersEndpoint aU3 aP3 db3 u3 p3).isOk = false := by
  refine ⟨?_, ?_, ?_⟩
  · subst hp
    simp only [List.append_eq_nil] at hverr
    simp [usersEndpoint, hverr.1, hverr.2, listUsers, htrim, hesc]
  · intro u2 p2
    cases hE : (adminUsernameErrors u2 ++ adminPasswordErrors p2).isEmpty with
    | true =>
      have hne := jsEscape_ne_of_html hbad (jsTrim u2)
      simp [usersEndpoint, hE, listUsers, hne, UsersResult.isOk]
    | false => simp [usersEndpoint, hE, UsersResult.isOk]
  · cases hE : (adminUsernameErrors u3 ++ adminPasswordErrors p3).isEmpty with
    | true => simp [usersEndpoint, hE, listUsers, hp3, UsersResult.isOk]
    | false => simp [usersEndpoint, hE, UsersResult.isOk]

/-- Witness for the amended C10 theorem: whitespace-padded username
authenticates; a configured username containing `<` never does; a
whitespace-padded password never does. -/
theorem c10_admin_username_escape_amended_witness :
    usersEndpoint "admin" "password123" [] " admin " "password123" =
      .ok (sortByCreatedDesc []) ∧
    (∀ u2 p2, (usersEndpoint "a<b" "pw123456789" [] u2 p2).isOk = false) ∧
    (usersEndpoint "admin" "password123" [] "admin" " password123").isOk = false := by
  exact c10_admin_username_escape_amended "admin" "password123" [] " admin " "password123"
    "a<b" "pw123456789" [] "admin" "password123" [] "admin" " password123"
    (by decide) (by decide) (by decide) (by decide)
    ⟨'<', by decide, Or.inl rfl⟩ (by decide)

end Madcat
